import Mathlib

/-!
Shallow embedding of the `crud_template` repository: the Product data model,
the two storage backends (`CRUDBase` in `app/crud/base.py`, `TemplateCRUDBase`
in `app/crud/template_base.py`) and the orchestration layer
(`ProductService` in `app/services/product_service.py`), together with proofs
of the behavioural claims about them.

The relational store is SQLite (`DATABASE_URL = "sqlite:///./app.db"`).  A
table with an `INTEGER PRIMARY KEY` column is a rowid table: a full scan
enumerates rows in ascending rowid order, and freshly inserted rows receive
`lastrowid` larger than every live rowid.  The table state is therefore
modelled as a list of rows kept in insertion (= id) order plus the next id
the store will assign.
-/

/-- A SQL value as bound to a statement parameter (the values appearing in the
Python dictionaries handed to the raw-SQL backend). -/
inductive Val where
  | null
  | str (s : String)
  | num (q : ℚ)
deriving DecidableEq, Repr

/-- A persisted row of the `products` table.  Matches the columns reported by
`tests/test_db_init.py`: id, name, description, price.  `name` and `price` are
NOT NULL (so carried directly), `description` is nullable. -/
structure Product where
  id : Nat
  name : String
  description : Option String
  price : ℚ
deriving DecidableEq, Repr

/-- The state of the `products` table: live rows in rowid (= insertion) order,
and the id SQLite will assign to the next inserted row. -/
structure DB where
  rows : List Product
  nextId : Nat
deriving DecidableEq, Repr

/-- Rows appear in strictly ascending id order (SQLite rowid-table scan order). -/
def rowsOrdered (l : List Product) : Prop :=
  l.Pairwise (fun a b => a.id < b.id)

/-- Every live row's id is below the id the store will assign next. -/
def idsBounded (db : DB) : Prop :=
  ∀ r ∈ db.rows, r.id < db.nextId

/-- Pairwise distinct names, as enforced by the UNIQUE constraint on `name`. -/
def namesUnique (l : List Product) : Prop :=
  l.Pairwise (fun a b => a.name ≠ b.name)

/-- The three store invariants every reachable table state satisfies. -/
def dbInv (db : DB) : Prop :=
  rowsOrdered db.rows ∧ idsBounded db ∧ namesUnique db.rows

instance : DecidablePred rowsOrdered := fun l =>
  List.instDecidablePairwise l

instance (db : DB) : Decidable (idsBounded db) :=
  List.decidableBAll _ db.rows

instance : DecidablePred namesUnique := fun l =>
  List.instDecidablePairwise l

instance (db : DB) : Decidable (dbInv db) :=
  instDecidableAnd

/-- Row lookup by id, as a `SELECT ... WHERE id = :id` (first match in scan
order; ids are unique in reachable states). -/
def findById (l : List Product) (id : Nat) : Option Product :=
  l.find? (fun r => r.id == id)

/-- Does some live row already use this name (the UNIQUE check on INSERT)? -/
def nameTaken (l : List Product) (n : String) : Bool :=
  l.any (fun r => r.name == n)

/-- Does a row other than the one with id `id` use this name (the UNIQUE check
on UPDATE, which must not fire against the row being updated itself)? -/
def nameTakenExcept (l : List Product) (id : Nat) (n : String) : Bool :=
  l.any (fun r => r.name == n && r.id != id)

/-! ### Python string helpers

`ProductService.update_product` scans the exception text with `str.find`,
substring membership (`in`), `str.lower`, and a character loop.  These are
modelled on `List Char` (Python strings are sequences of code points). -/

/-- Does `pat` occur as a prefix of `text`? -/
def charsIsPrefix : List Char → List Char → Bool
  | [], _ => true
  | _ :: _, [] => false
  | p :: ps, c :: cs => p == c && charsIsPrefix ps cs

/-- Index of the first occurrence of `pat` in `text` (Python `str.find`,
restricted to non-negative results; `none` when absent). -/
def charsFind (pat : List Char) : List Char → Option Nat
  | [] => if pat.isEmpty then some 0 else none
  | c :: cs =>
    if charsIsPrefix pat (c :: cs) then some 0
    else (charsFind pat cs).map (· + 1)

/-- Python `pat in s` (substring membership). -/
def strContains (s pat : String) : Bool :=
  (charsFind pat.toList s.toList).isSome

/-- Python `s.lower()` (ASCII case folding suffices for the scanned text). -/
def strLower (s : String) : String :=
  String.mk (s.toList.map Char.toLower)

/-- Python `s.strip()`: drop leading and trailing whitespace. -/
def pyStrip (s : String) : String :=
  String.mk (((s.toList.dropWhile Char.isWhitespace).reverse.dropWhile
    Char.isWhitespace).reverse)

/-- A single-quote character, used in the service's f-string error details. -/
def squote : String :=
  String.mk [Char.ofNat 39]

/-!  ### Store-level errors and the SQLite constraint messages  -/

/-- An exception escaping a storage call: SQLAlchemy's `IntegrityError`
(carrying `str(e)`), an `HTTPException` raised inside `CRUDBase.create`, or the
`ValueError` raised by `CRUDBase.remove`. -/
inductive CrudError where
  | integrity (msg : String)
  | http (status : Nat) (detail : String)
  | valueError (msg : String)
deriving DecidableEq, Repr

/-- The `str(e)` of an `IntegrityError` for a SQLite UNIQUE violation. -/
def uniqueMsg (col : String) : String :=
  "(sqlite3.IntegrityError) UNIQUE constraint failed: products." ++ col

/-- The `str(e)` of an `IntegrityError` for a SQLite NOT NULL violation. -/
def notNullMsg (col : String) : String :=
  "(sqlite3.IntegrityError) NOT NULL constraint failed: products." ++ col

/-- Modelled from the spec: the SQLAlchemy model `app/models/product.py` is
imported by the application but is not among the sources.  Per the spec's data
model (and the columns checked by `tests/test_db_init.py` and the NOT NULL
errors asserted by `tests/test_products.py`), the `products` table has columns
id (INTEGER PRIMARY KEY, store-assigned), name (TEXT NOT NULL UNIQUE),
description (TEXT, nullable), price (NUMERIC NOT NULL).  `insertRow` is
SQLite's `INSERT` over that table: NOT NULL checks on name and price (in
column order), then the UNIQUE check on name, then the row is appended with
the fresh rowid. -/
def insertRow (db : DB) (name : Option String) (descr : Option String)
    (price : Option ℚ) : Except CrudError (Product × DB) :=
  match name with
  | none => .error (.integrity (notNullMsg "name"))
  | some n =>
    match price with
    | none => .error (.integrity (notNullMsg "price"))
    | some p =>
      if nameTaken db.rows n then
        .error (.integrity (uniqueMsg "name"))
      else
        let row : Product := ⟨db.nextId, n, descr, p⟩
        .ok (row, ⟨db.rows ++ [row], db.nextId + 1⟩)

/-- Modelled from the spec (same missing model file as `insertRow`): SQLite's
`UPDATE products SET ... WHERE id = r.id` applied to the matched row `r`.
`uname`/`udescr`/`uprice`: `none` = column not mentioned in the SET clause,
`some none` = explicitly set to NULL, `some (some v)` = set to `v`.  Constraint
checks mirror `insertRow`, except that the UNIQUE check ignores the row being
updated itself.  On success the row is replaced in place (rowid unchanged). -/
def updateRowInDb (db : DB) (r : Product) (uname udescr : Option (Option String))
    (uprice : Option (Option ℚ)) : Except CrudError (Product × DB) :=
  let newName : Option String := match uname with | none => some r.name | some v => v
  let newDescr : Option String := match udescr with | none => r.description | some v => v
  let newPrice : Option ℚ := match uprice with | none => some r.price | some v => v
  match newName with
  | none => .error (.integrity (notNullMsg "name"))
  | some n =>
    match newPrice with
    | none => .error (.integrity (notNullMsg "price"))
    | some p =>
      if nameTakenExcept db.rows r.id n then
        .error (.integrity (uniqueMsg "name"))
      else
        let row' : Product := ⟨r.id, n, newDescr, p⟩
        .ok (row', ⟨db.rows.map (fun x => if x.id == r.id then row' else x), db.nextId⟩)

/-! ### Input schemas (`app/schemas/product.py`), post-validation

`ProductCreate` requires `name` and `price`; `description` is optional with
default `None`.  Because `model_dump(exclude_unset=True)` distinguishes an
unset `description` from an explicit `null`, that outer distinction is kept as
an `Option (Option _)`.  `ProductUpdate` makes all three fields optional the
same way. -/

structure ProductCreate where
  name : String
  description : Option (Option String)
  price : ℚ
deriving DecidableEq, Repr

structure ProductUpdate where
  name : Option (Option String)
  description : Option (Option String)
  price : Option (Option ℚ)
deriving DecidableEq, Repr

/-- Facts about a `ProductCreate` value that passed the pydantic validators:
the name was stripped and is non-empty, the price is positive. -/
def ProductCreate.valid (p : ProductCreate) : Prop :=
  pyStrip p.name = p.name ∧ p.name ≠ "" ∧ 0 < p.price

instance (p : ProductCreate) : Decidable p.valid :=
  instDecidableAnd

/-- The column value a present update field binds (`optVal` of the schema
field): `None` binds NULL, a string binds text. -/
def optStrVal : Option String → Val
  | none => Val.null
  | some s => Val.str s

/-- The column value a present numeric update field binds. -/
def optNumVal : Option ℚ → Val
  | none => Val.null
  | some q => Val.num q

/-- `product.model_dump(exclude_unset=True)` for a `ProductCreate`, as the
association list the raw-SQL backend receives (pydantic emits set fields in
declaration order: name, description, price). -/
def ProductCreate.toDict (p : ProductCreate) : List (String × Val) :=
  [("name", Val.str p.name)]
    ++ (match p.description with
        | none => []
        | some v => [("description", optStrVal v)])
    ++ [("price", Val.num p.price)]

/-- `product_update.model_dump(exclude_unset=True)` for a `ProductUpdate`. -/
def ProductUpdate.toDict (u : ProductUpdate) : List (String × Val) :=
  (match u.name with
   | none => []
   | some v => [("name", optStrVal v)])
    ++ (match u.description with
        | none => []
        | some v => [("description", optStrVal v)])
    ++ (match u.price with
        | none => []
        | some v => [("price", optNumVal v)])

/-- Binding a parameter into a TEXT column: NULL stays NULL.  (A numeric bind
into a TEXT column does not occur in this application.) -/
def bindText : Val → Option String
  | Val.str s => some s
  | _ => none

/-- Binding a parameter into the NUMERIC `price` column. -/
def bindNum : Val → Option ℚ
  | Val.num q => some q
  | _ => none

/-- Value bound for column `k`, if the dictionary mentions it. -/
def lookupKey (obj : List (String × Val)) (k : String) : Option Val :=
  (obj.find? (fun kv => kv.1 == k)).map (fun kv => kv.2)

/-! ### The ORM backend: `CRUDBase` (`app/crud/base.py`) -/

namespace CRUDBase

/-- `db.query(self.model).filter(self.model.id == id).first()`. -/
def get (db : DB) (id : Nat) : Option Product :=
  findById db.rows id

/-- `db.query(self.model).offset(skip).limit(limit).all()`: no ORDER BY is
issued; SQLite scans the rowid table in rowid order, i.e. the model's list
order. -/
def get_multi (db : DB) (skip limit : Nat) : List Product :=
  (db.rows.drop skip).take limit

/-- `create`: `jsonable_encoder` materialises all three fields (an unset
description encodes as `null`), the row is inserted and committed; an
`IntegrityError` is caught, the session rolled back, and an
`HTTPException(400, "A record with this value already exists.")` raised. -/
def create (db : DB) (p : ProductCreate) : Except CrudError (Product × DB) :=
  match insertRow db (some p.name) p.description.join (some p.price) with
  | .ok out => .ok out
  | .error (.integrity _) =>
    .error (.http 400 "A record with this value already exists.")
  | .error e => .error e

/-- `update`: `obj_in.model_dump(exclude_unset=True)` is applied field by
field to the previously fetched `db_obj`, then committed; an `IntegrityError`
from the commit propagates to the caller. -/
def update (db : DB) (db_obj : Product) (u : ProductUpdate) :
    Except CrudError (Product × DB) :=
  updateRowInDb db db_obj u.name u.description u.price

/-- `remove`: `db.get(self.model, id)` (primary-key lookup), then a
`ValueError` if nothing matched, otherwise delete and commit, returning the
prior row. -/
def remove (db : DB) (id : Nat) : Except CrudError (Product × DB) :=
  match findById db.rows id with
  | none => .error (.valueError ("Product with id " ++ toString id ++ " not found"))
  | some r => .ok (r, ⟨db.rows.filter (fun x => x.id != id), db.nextId⟩)

end CRUDBase

/-! ### The raw-SQL backend: `TemplateCRUDBase` (`app/crud/template_base.py`)

Both the generated SQL text (needed for the parameter-binding claim) and its
execution against the table state are modelled. -/

namespace TemplateCRUDBase

/-- Text of `SELECT * FROM {table} WHERE id = :id`. -/
def getSql (table : String) : String :=
  "SELECT * FROM " ++ table ++ " WHERE id = :id"

/-- Text of the paginated select. -/
def getMultiSql (table : String) : String :=
  "SELECT * FROM " ++ table ++ " ORDER BY id LIMIT :limit OFFSET :skip"

/-- Text of the INSERT built by `create`: column list and placeholder list are
joined from the dictionary's keys. -/
def createSql (table : String) (obj_in : List (String × Val)) : String :=
  let columns := String.intercalate ", " (obj_in.map (fun kv => kv.1))
  let placeholders := String.intercalate ", " (obj_in.map (fun kv => ":" ++ kv.1))
  "INSERT INTO " ++ table ++ " (" ++ columns ++ ") VALUES (" ++ placeholders ++ ")"

/-- Text of the UPDATE built by `update`: `key = :key` pairs joined from the
dictionary's keys. -/
def updateSql (table : String) (obj_in : List (String × Val)) : String :=
  let set_clause :=
    String.intercalate ", " (obj_in.map (fun kv => kv.1 ++ " = :" ++ kv.1))
  "UPDATE " ++ table ++ " SET " ++ set_clause ++ " WHERE id = :id"

/-- Text of `DELETE FROM {table} WHERE id = :id`. -/
def removeSql (table : String) : String :=
  "DELETE FROM " ++ table ++ " WHERE id = :id"

/-- `get`: execute the select and convert the row mapping, `None` if absent. -/
def get (db : DB) (id : Nat) : Option Product :=
  findById db.rows id

/-- `get_multi`: `ORDER BY id LIMIT :limit OFFSET :skip`. -/
def get_multi (db : DB) (skip limit : Nat) : List Product :=
  (((db.rows.insertionSort (fun a b => a.id ≤ b.id)).drop skip).take limit)

/-- `create`: execute the INSERT (columns absent from the dictionary default
to NULL), commit, then `self.get` on `lastrowid`.  An `IntegrityError`
propagates to the caller uncaught. -/
def create (db : DB) (obj_in : List (String × Val)) :
    Except CrudError (Option Product × DB) :=
  match insertRow db ((lookupKey obj_in "name").bind bindText)
      ((lookupKey obj_in "description").bind bindText)
      ((lookupKey obj_in "price").bind bindNum) with
  | .error e => .error e
  | .ok (row, db') => .ok (get db' row.id, db')

/-- `update`: an empty dictionary short-circuits to `self.get`; otherwise the
UPDATE is executed (0 matched rows → `rowcount == 0` → `None`; a constraint
violation raises), then `self.get` returns the updated record. -/
def update (db : DB) (id : Nat) (obj_in : List (String × Val)) :
    Except CrudError (Option Product × DB) :=
  if obj_in.isEmpty then
    .ok (get db id, db)
  else
    match findById db.rows id with
    | none => .ok (none, db)
    | some r =>
      match updateRowInDb db r
          ((lookupKey obj_in "name").map bindText)
          ((lookupKey obj_in "description").map bindText)
          ((lookupKey obj_in "price").map bindNum) with
      | .error e => .error e
      | .ok (_, db') => .ok (get db' id, db')

/-- `remove`: fetch first (`None` if absent), then DELETE and commit,
returning the prefetched record when `rowcount > 0`. -/
def remove (db : DB) (id : Nat) : Except CrudError (Option Product × DB) :=
  match get db id with
  | none => .ok (none, db)
  | some r => .ok (some r, ⟨db.rows.filter (fun x => x.id != id), db.nextId⟩)

end TemplateCRUDBase

/-! ### The orchestration layer: `ProductService`
(`app/services/product_service.py`)

The service holds a session and one of the two CRUD objects; the
`isinstance(self.product_crud, TemplateCRUDBase)` dispatch is modelled by a
`Backend` tag.  A raised `HTTPException` and an exception escaping the service
unhandled are the two error shapes the transport layer can observe. -/

inductive Backend where
  | orm
  | template
deriving DecidableEq, Repr

/-- An HTTP error response (`HTTPException(status_code, detail)`). -/
structure HTTPErr where
  status : Nat
  detail : String
deriving DecidableEq, Repr

/-- What escapes a service call on failure: an `HTTPException`, or an
exception the service does not catch (propagating to the framework). -/
inductive SvcErr where
  | http (e : HTTPErr)
  | uncaught (e : CrudError)
deriving DecidableEq, Repr

namespace ProductService

/-- `get_product_by_id`: fetch, 404 when absent. -/
def get_product_by_id (b : Backend) (db : DB) (id : Nat) : Except SvcErr Product :=
  let res := match b with
    | .orm => CRUDBase.get db id
    | .template => TemplateCRUDBase.get db id
  match res with
  | none => .error (.http ⟨404, "Product not found"⟩)
  | some r => .ok r

/-- `get_all_products`: delegate to the backend's `get_multi`. -/
def get_all_products (b : Backend) (db : DB) (skip limit : Nat) : List Product :=
  match b with
  | .orm => CRUDBase.get_multi db skip limit
  | .template => TemplateCRUDBase.get_multi db skip limit

/-- The `except IntegrityError` clause of `create_product`: a message
mentioning the UNIQUE failure (or "already exists", case-folded) becomes a 400
naming the submitted product, anything else a 400 constraint-violation
message.  An `HTTPException` raised inside `CRUDBase.create` is not an
`IntegrityError` and passes through unchanged; any other exception
propagates. -/
def createErrToSvc (name : String) (e : CrudError) : SvcErr :=
  match e with
  | .integrity msg =>
    if strContains msg "UNIQUE constraint failed"
        || strContains (strLower msg) "already exists" then
      .http ⟨400, "Product with name " ++ squote ++ name ++ squote ++ " already exists"⟩
    else
      .http ⟨400, "Database constraint violation"⟩
  | .http st d => .http ⟨st, d⟩
  | .valueError m => .uncaught (.valueError m)

/-- `create_product`: dispatch on the implementation (dictionary for the
template backend, the pydantic model for the ORM backend) and translate
`IntegrityError`s.  The ORM path returns the created object, the template path
an optional dictionary; both are observed as an optional record. -/
def create_product (b : Backend) (db : DB) (p : ProductCreate) :
    Except SvcErr (Option Product) × DB :=
  match b with
  | .template =>
    match TemplateCRUDBase.create db p.toDict with
    | .error e => (.error (createErrToSvc p.name e), db)
    | .ok (ro, db') => (.ok ro, db')
  | .orm =>
    match CRUDBase.create db p with
    | .error e => (.error (createErrToSvc p.name e), db)
    | .ok (r, db') => (.ok (some r), db')

/-- The field-name extraction of `update_product` (lines 71-90): locate the
first `"products."` in the error text, then collect the following
alphanumeric-or-underscore characters, falling back to `"field"`. -/
def extractFieldName (errorStr : String) : String :=
  let chars := errorStr.toList
  match charsFind "products.".toList chars with
  | none => "field"
  | some i =>
    let remaining := chars.drop (i + "products.".toList.length)
    let fieldName := remaining.takeWhile (fun c => c.isAlphanum || c == '_')
    if fieldName.isEmpty then "field" else String.mk fieldName

/-- The `except IntegrityError` clause of `update_product`: the session is
rolled back first (in the model: the state handed back with the error is the
pre-call state), then NOT NULL failures become a 422 naming the extracted
field, UNIQUE failures a 400, anything else a 400 constraint violation. -/
def updateErrToSvc (e : CrudError) : SvcErr :=
  match e with
  | .integrity msg =>
    if strContains msg "NOT NULL constraint failed" then
      .http ⟨422, "Required field " ++ squote ++ extractFieldName msg ++ squote
        ++ " cannot be null or empty"⟩
    else if strContains msg "UNIQUE constraint failed"
        || strContains (strLower msg) "already exists" then
      .http ⟨400, "Product with this name already exists"⟩
    else
      .http ⟨400, "Database constraint violation"⟩
  | .http st d => .http ⟨st, d⟩
  | .valueError m => .uncaught (.valueError m)

/-- `update_product`: existence fetch first (404 when absent), then dispatch
the update (dictionary with the template backend, the fetched `db_obj` with
the ORM backend), rolling back and translating an `IntegrityError`. -/
def update_product (b : Backend) (db : DB) (id : Nat) (u : ProductUpdate) :
    Except SvcErr (Option Product) × DB :=
  match get_product_by_id b db id with
  | .error e => (.error e, db)
  | .ok db_obj =>
    match b with
    | .template =>
      match TemplateCRUDBase.update db id u.toDict with
      | .error e => (.error (updateErrToSvc e), db)
      | .ok (ro, db') => (.ok ro, db')
    | .orm =>
      match CRUDBase.update db db_obj u with
      | .error e => (.error (updateErrToSvc e), db)
      | .ok (r, db') => (.ok (some r), db')

/-- `delete_product`: existence fetch first (404 when absent), then the
backend's `remove`; nothing is caught around `remove`. -/
def delete_product (b : Backend) (db : DB) (id : Nat) :
    Except SvcErr (Option Product) × DB :=
  match get_product_by_id b db id with
  | .error e => (.error e, db)
  | .ok _ =>
    match b with
    | .template =>
      match TemplateCRUDBase.remove db id with
      | .error e => (.error (.uncaught e), db)
      | .ok (ro, db') => (.ok ro, db')
    | .orm =>
      match CRUDBase.remove db id with
      | .error e => (.error (.uncaught e), db)
      | .ok (r, db') => (.ok (some r), db')

end ProductService

/-! ### Storage-operation sequences, for the backend-equivalence claim

A sequence of storage calls is replayed against both backends from the same
initial table state; each call's observable outcome is the returned record(s),
an absent result, or a raised exception. -/

/-- One storage call with its arguments (update carries the target id: the
orchestration layer pre-fetches the row and hands the ORM backend that
`db_obj`, the template backend the id itself). -/
inductive StoreOp where
  | get (id : Nat)
  | getMulti (skip limit : Nat)
  | create (p : ProductCreate)
  | update (id : Nat) (u : ProductUpdate)
  | remove (id : Nat)
deriving DecidableEq, Repr

/-- The observable outcome of one storage call. -/
inductive Outcome where
  | rows (l : List Product)
  | absent
  | failure
deriving DecidableEq, Repr

/-- One storage call against the ORM backend. -/
def ormStep (db : DB) : StoreOp → Outcome × DB
  | .get id =>
    (match CRUDBase.get db id with
     | none => .absent
     | some r => .rows [r], db)
  | .getMulti skip limit => (.rows (CRUDBase.get_multi db skip limit), db)
  | .create p =>
    match CRUDBase.create db p with
    | .ok (r, db') => (.rows [r], db')
    | .error _ => (.failure, db)
  | .update id u =>
    match CRUDBase.get db id with
    | none => (.failure, db)
    | some r =>
      match CRUDBase.update db r u with
      | .ok (r', db') => (.rows [r'], db')
      | .error _ => (.failure, db)
  | .remove id =>
    match CRUDBase.remove db id with
    | .ok (r, db') => (.rows [r], db')
    | .error _ => (.failure, db)

/-- One storage call against the raw-SQL backend (dictionaries built exactly
as `ProductService` builds them). -/
def templateStep (db : DB) : StoreOp → Outcome × DB
  | .get id =>
    (match TemplateCRUDBase.get db id with
     | none => .absent
     | some r => .rows [r], db)
  | .getMulti skip limit => (.rows (TemplateCRUDBase.get_multi db skip limit), db)
  | .create p =>
    match TemplateCRUDBase.create db p.toDict with
    | .ok (some r, db') => (.rows [r], db')
    | .ok (none, db') => (.absent, db')
    | .error _ => (.failure, db)
  | .update id u =>
    match TemplateCRUDBase.update db id u.toDict with
    | .ok (some r, db') => (.rows [r], db')
    | .ok (none, db') => (.absent, db')
    | .error _ => (.failure, db)
  | .remove id =>
    match TemplateCRUDBase.remove db id with
    | .ok (some r, db') => (.rows [r], db')
    | .ok (none, db') => (.absent, db')
    | .error _ => (.failure, db)

/-- Replay a sequence against the ORM backend. -/
def ormRun (db : DB) : List StoreOp → List Outcome × DB
  | [] => ([], db)
  | op :: ops =>
    let s := ormStep db op
    let rest := ormRun s.2 ops
    (s.1 :: rest.1, rest.2)

/-- Replay a sequence against the raw-SQL backend. -/
def templateRun (db : DB) : List StoreOp → List Outcome × DB
  | [] => ([], db)
  | op :: ops =>
    let s := templateStep db op
    let rest := templateRun s.2 ops
    (s.1 :: rest.1, rest.2)

/-- Does the operation target a live id when it must (the orchestration layer
only reaches storage `update`/`remove` after a successful existence fetch)? -/
def opTargetsExisting (db : DB) : StoreOp → Bool
  | .update id _ => (findById db.rows id).isSome
  | .remove id => (findById db.rows id).isSome
  | _ => true

/-- A sequence in which every `update`/`remove` targets an id live at the time
of the call (evaluated along the replay). -/
def validSeq (db : DB) : List StoreOp → Bool
  | [] => true
  | op :: ops => opTargetsExisting db op && validSeq (templateStep db op).2 ops

/-! ## Helper lemmas -/

theorem findById_id_eq {l : List Product} {i : Nat} {r : Product}
    (h : findById l i = some r) : r.id = i := by
  unfold findById at h
  have h2 := List.find?_some h
  simpa using h2

theorem findById_mem {l : List Product} {i : Nat} {r : Product}
    (h : findById l i = some r) : r ∈ l :=
  List.mem_of_find?_eq_some h

theorem findById_append_fresh (l : List Product) (row : Product)
    (h : ∀ r ∈ l, r.id ≠ row.id) : findById (l ++ [row]) row.id = some row := by
  induction l with
  | nil => simp [findById, List.find?]
  | cons x xs ih =>
    have hx : ¬ (x.id == row.id) = true := by
      simpa using h x (List.mem_cons_self x xs)
    have hxs : ∀ r ∈ xs, r.id ≠ row.id := fun r hr => h r (List.mem_cons_of_mem x hr)
    unfold findById at ih ⊢
    rw [List.cons_append, List.find?_cons_of_neg (p := fun q : Product => q.id == row.id) _ hx]
    exact ih hxs

theorem ordered_id_inj {l : List Product} (hord : rowsOrdered l)
    {x y : Product} (hx : x ∈ l) (hy : y ∈ l) (h : x.id = y.id) : x = y := by
  by_contra hne
  have hpw : l.Pairwise (fun a b => a.id ≠ b.id) :=
    hord.imp (fun hab => Nat.ne_of_lt hab)
  exact hpw.forall (fun a b hab => Ne.symm hab) hx hy hne h

theorem unique_name_inj {l : List Product} (hu : namesUnique l)
    {x y : Product} (hx : x ∈ l) (hy : y ∈ l) (h : x.name = y.name) : x = y := by
  by_contra hne
  exact hu.forall (fun a b hab => Ne.symm hab) hx hy hne h

theorem nameTakenExcept_self (l : List Product) (r : Product)
    (hu : namesUnique l) (hr : r ∈ l) :
    nameTakenExcept l r.id r.name = false := by
  rw [nameTakenExcept, List.any_eq_false]
  intro x hx
  by_cases hnm : x.name = r.name
  · have hxr : x = r := unique_name_inj hu hx hr hnm
    subst hxr
    simp
  · simp [hnm]

theorem findById_map_replace (l : List Product) (i : Nat) (r r' : Product)
    (hord : rowsOrdered l) (hf : findById l i = some r) (hid : r'.id = r.id) :
    findById (l.map (fun x => if x.id == r.id then r' else x)) i = some r' := by
  have hri : r.id = i := findById_id_eq hf
  induction l with
  | nil => simp [findById] at hf
  | cons x xs ih =>
    rw [rowsOrdered, List.pairwise_cons] at hord
    by_cases hx : x.id = i
    · have hxr : x = r := by
        unfold findById at hf
        rw [List.find?_cons_of_pos _ (by simpa using hx)] at hf
        exact Option.some.inj hf
      subst hxr
      unfold findById
      simp only [List.map_cons, if_pos (beq_self_eq_true x.id)]
      exact List.find?_cons_of_pos _ (by simp [hid, hri])
    · have hfxs : findById xs i = some r := by
        unfold findById at hf ⊢
        rwa [List.find?_cons_of_neg _ (by simpa using hx)] at hf
      have hxll : (x.id == r.id) = false := by
        rw [beq_eq_false_iff_ne]
        omega
      unfold findById
      simp only [List.map_cons, hxll, if_false, Bool.false_eq_true]
      rw [List.find?_cons_of_neg _ (by simpa using hx)]
      exact ih hord.2 hfxs

theorem map_replace_self (l : List Product) (i : Nat) (r : Product)
    (hord : rowsOrdered l) (hf : findById l i = some r) :
    l.map (fun x => if x.id == r.id then r else x) = l := by
  have hcongr : ∀ x ∈ l, (if x.id == r.id then r else x) = id x := by
    intro x hx
    by_cases hxr : x.id = r.id
    · have : x = r := ordered_id_inj hord hx (findById_mem hf) hxr
      simp [this]
    · simp [hxr]
  rw [List.map_congr_left hcongr, List.map_id]

theorem bindText_optStrVal (v : Option String) : bindText (optStrVal v) = v := by
  cases v <;> rfl

theorem lookup_update_name (u : ProductUpdate) :
    (lookupKey u.toDict "name").map bindText = u.name := by
  rcases u with ⟨un, ud, up⟩
  cases un <;> cases ud <;> cases up <;>
    simp [ProductUpdate.toDict, lookupKey, List.find?, bindText_optStrVal]

theorem lookup_update_description (u : ProductUpdate) :
    (lookupKey u.toDict "description").map bindText = u.description := by
  rcases u with ⟨un, ud, up⟩
  cases un <;> cases ud <;> cases up <;>
    simp [ProductUpdate.toDict, lookupKey, List.find?, bindText_optStrVal]

theorem bindNum_optNumVal (v : Option ℚ) : bindNum (optNumVal v) = v := by
  cases v <;> rfl

theorem lookup_update_price (u : ProductUpdate) :
    (lookupKey u.toDict "price").map bindNum = u.price := by
  rcases u with ⟨un, ud, up⟩
  cases un <;> cases ud <;> cases up <;>
    simp [ProductUpdate.toDict, lookupKey, List.find?, bindNum_optNumVal]

theorem update_toDict_isEmpty (u : ProductUpdate) :
    u.toDict.isEmpty = true ↔ u.name = none ∧ u.description = none ∧ u.price = none := by
  rcases u with ⟨un, ud, up⟩
  cases un <;> cases ud <;> cases up <;> simp [ProductUpdate.toDict]

theorem lookup_create_name (p : ProductCreate) :
    (lookupKey p.toDict "name").bind bindText = some p.name := by
  rcases p with ⟨n, d, q⟩
  cases d <;> simp [ProductCreate.toDict, lookupKey, List.find?, bindText]

theorem lookup_create_description (p : ProductCreate) :
    (lookupKey p.toDict "description").bind bindText = p.description.join := by
  rcases p with ⟨n, d, q⟩
  cases d with
  | none => simp [ProductCreate.toDict, lookupKey, List.find?, Option.join]
  | some v =>
    cases v <;>
      simp [ProductCreate.toDict, lookupKey, List.find?, bindText, optStrVal, Option.join]

theorem lookup_create_price (p : ProductCreate) :
    (lookupKey p.toDict "price").bind bindNum = some p.price := by
  rcases p with ⟨n, d, q⟩
  cases d <;> simp [ProductCreate.toDict, lookupKey, List.find?, bindNum]

theorem insertRow_ok {db : DB} {n : String} {d : Option String} {q : ℚ}
    {row : Product} {db' : DB}
    (h : insertRow db (some n) d (some q) = .ok (row, db')) :
    row = ⟨db.nextId, n, d, q⟩ ∧ nameTaken db.rows n = false
      ∧ db' = ⟨db.rows ++ [row], db.nextId + 1⟩ := by
  unfold insertRow at h
  by_cases ht : nameTaken db.rows n
  · simp [ht] at h
  · simp [ht] at h
    exact ⟨h.1.symm, by simpa using ht, by simp [h.1.symm, h.2.symm]⟩

theorem insertRow_fresh_ok (db : DB) (n : String) (d : Option String) (q : ℚ)
    (hfresh : nameTaken db.rows n = false) :
    insertRow db (some n) d (some q)
      = .ok (⟨db.nextId, n, d, q⟩, ⟨db.rows ++ [⟨db.nextId, n, d, q⟩], db.nextId + 1⟩) := by
  unfold insertRow
  simp [hfresh]

theorem insertRow_taken (db : DB) (n : String) (d : Option String) (q : ℚ)
    (htaken : nameTaken db.rows n = true) :
    insertRow db (some n) d (some q) = .error (.integrity (uniqueMsg "name")) := by
  unfold insertRow
  simp [htaken]

theorem updateRowInDb_ok {db : DB} {r : Product}
    {uname udescr : Option (Option String)} {uprice : Option (Option ℚ)}
    {row' : Product} {db' : DB}
    (h : updateRowInDb db r uname udescr uprice = .ok (row', db')) :
    row'.id = r.id ∧ nameTakenExcept db.rows r.id row'.name = false
      ∧ db' = ⟨db.rows.map (fun x => if x.id == r.id then row' else x), db.nextId⟩ := by
  unfold updateRowInDb at h
  rcases hn : (match uname with | none => some r.name | some v => v) with _ | n
  · simp [hn] at h
  rcases hq : (match uprice with | none => some r.price | some v => v) with _ | q
  · simp [hn, hq] at h
  by_cases ht : nameTakenExcept db.rows r.id n
  · simp [hn, hq, ht] at h
  · simp [hn, hq, ht] at h
    obtain ⟨h1, h2⟩ := h
    subst h1
    subst h2
    exact ⟨rfl, by simpa using ht, by simp⟩

theorem dbInv_insert (db : DB) (n : String) (d : Option String) (q : ℚ)
    (hinv : dbInv db) (hfresh : nameTaken db.rows n = false) :
    dbInv ⟨db.rows ++ [⟨db.nextId, n, d, q⟩], db.nextId + 1⟩ := by
  obtain ⟨hord, hb, hu⟩ := hinv
  have hfresh' : ∀ x ∈ db.rows, x.name ≠ n := by
    rw [nameTaken, List.any_eq_false] at hfresh
    intro x hx
    simpa using hfresh x hx
  refine ⟨?_, ?_, ?_⟩
  · rw [rowsOrdered, List.pairwise_append]
    refine ⟨hord, by simp [rowsOrdered], ?_⟩
    intro a ha b hb'
    simp only [List.mem_singleton] at hb'
    subst hb'
    exact hb a ha
  · intro x hx
    rcases List.mem_append.1 hx with hx1 | hx2
    · exact Nat.lt_succ_of_lt (hb x hx1)
    · simp only [List.mem_singleton] at hx2
      subst hx2
      exact Nat.lt_succ_self _
  · rw [namesUnique, List.pairwise_append]
    refine ⟨hu, by simp [namesUnique], ?_⟩
    intro a ha b hb'
    simp only [List.mem_singleton] at hb'
    subst hb'
    exact hfresh' a ha

theorem dbInv_filter (db : DB) (p : Product → Bool) (hinv : dbInv db) :
    dbInv ⟨db.rows.filter p, db.nextId⟩ := by
  obtain ⟨hord, hb, hu⟩ := hinv
  exact ⟨List.Pairwise.filter p hord,
    fun x hx => hb x (List.mem_filter.1 hx).1,
    List.Pairwise.filter p hu⟩

theorem dbInv_replace (db : DB) (r row' : Product) (hinv : dbInv db)
    (hid : row'.id = r.id)
    (hname : nameTakenExcept db.rows r.id row'.name = false) :
    dbInv ⟨db.rows.map (fun x => if x.id == r.id then row' else x), db.nextId⟩ := by
  obtain ⟨hord, hb, hu⟩ := hinv
  have hfid : ∀ x : Product, (if x.id == r.id then row' else x).id = x.id := by
    intro x
    by_cases hx : x.id = r.id
    · simp [hx, hid]
    · simp [hx]
  have hname' : ∀ x ∈ db.rows, x.id ≠ r.id → x.name ≠ row'.name := by
    rw [nameTakenExcept, List.any_eq_false] at hname
    intro x hx hne heq
    have hx2 := hname x hx
    simp only [Bool.and_eq_true, bne_iff_ne, beq_iff_eq, not_and, Decidable.not_not] at hx2
    exact hne (hx2 heq)
  refine ⟨?_, ?_, ?_⟩
  · rw [rowsOrdered, List.pairwise_map]
    refine hord.imp ?_
    intro a b hab
    simpa only [hfid] using hab
  · intro x hx
    rw [List.mem_map] at hx
    obtain ⟨y, hy, rfl⟩ := hx
    rw [hfid]
    exact hb y hy
  · rw [namesUnique, List.pairwise_map]
    have hcomb := List.Pairwise.and hord hu
    refine hcomb.imp_of_mem ?_
    intro a b ha hb2 hab
    obtain ⟨hlt, hne⟩ := hab
    by_cases hA : a.id = r.id <;> by_cases hB : b.id = r.id
    · omega
    · simp only [hA, beq_self_eq_true, if_true]
      rw [if_neg (by simpa using hB)]
      exact fun heq => (hname' b hb2 hB) heq.symm
    · rw [if_neg (by simpa using hA)]
      simp only [hB, beq_self_eq_true, if_true]
      exact hname' a ha hA
    · rw [if_neg (by simpa using hA), if_neg (by simpa using hB)]
      exact hne

theorem insertionSort_eq_of_ordered (l : List Product) (h : rowsOrdered l) :
    l.insertionSort (fun a b => a.id ≤ b.id) = l :=
  List.Sorted.insertionSort_eq (List.Pairwise.imp (fun hab => Nat.le_of_lt hab) h)

theorem template_create_toDict (db : DB) (p : ProductCreate) :
    TemplateCRUDBase.create db p.toDict
      = match insertRow db (some p.name) p.description.join (some p.price) with
        | .error e => .error e
        | .ok (row, db') => .ok (TemplateCRUDBase.get db' row.id, db') := by
  unfold TemplateCRUDBase.create
  rw [lookup_create_name, lookup_create_description, lookup_create_price]

theorem template_update_nonempty (db : DB) (id : Nat) (u : ProductUpdate)
    (hne : u.toDict.isEmpty = false) :
    TemplateCRUDBase.update db id u.toDict
      = match findById db.rows id with
        | none => .ok (none, db)
        | some r =>
          match updateRowInDb db r u.name u.description u.price with
          | .error e => .error e
          | .ok (_, db') => .ok (TemplateCRUDBase.get db' id, db') := by
  unfold TemplateCRUDBase.update
  rw [lookup_update_name, lookup_update_description, lookup_update_price, hne]
  simp only [Bool.false_eq_true, if_false]

theorem get_after_insert (db : DB) (n : String) (d : Option String) (q : ℚ)
    (hbnd : idsBounded db) :
    findById (db.rows ++ [⟨db.nextId, n, d, q⟩]) db.nextId
      = some ⟨db.nextId, n, d, q⟩ :=
  findById_append_fresh db.rows _ (fun r hr => Nat.ne_of_lt (hbnd r hr))

theorem empty_update_is_noop (db : DB) (r : Product) (hord : rowsOrdered db.rows)
    (hu : namesUnique db.rows) {i : Nat} (hr : findById db.rows i = some r) :
    updateRowInDb db r none none none = .ok (r, db) := by
  unfold updateRowInDb
  simp only [nameTakenExcept_self db.rows r hu (findById_mem hr),
    Bool.false_eq_true, if_false]
  rw [map_replace_self db.rows i r hord hr]

theorem step_agrees (db : DB) (op : StoreOp) (hinv : dbInv db)
    (hop : opTargetsExisting db op = true) :
    ormStep db op = templateStep db op := by
  obtain ⟨hord, hbnd, hu⟩ := hinv
  cases op with
  | get id => rfl
  | getMulti skip limit =>
    simp only [ormStep, templateStep, CRUDBase.get_multi, TemplateCRUDBase.get_multi,
      insertionSort_eq_of_ordered db.rows hord]
  | create p =>
    simp only [ormStep, templateStep, CRUDBase.create, template_create_toDict]
    by_cases htaken : nameTaken db.rows p.name
    · rw [insertRow_taken db p.name p.description.join p.price htaken]
    · rw [insertRow_fresh_ok db p.name p.description.join p.price (by simpa using htaken)]
      simp only [TemplateCRUDBase.get]
      rw [get_after_insert db p.name p.description.join p.price hbnd]
  | update id u =>
    simp only [opTargetsExisting, Option.isSome_iff_exists] at hop
    obtain ⟨r, hr⟩ := hop
    have hrid : r.id = id := findById_id_eq hr
    by_cases hempty : u.toDict.isEmpty
    · obtain ⟨hn, hd, hp⟩ := (update_toDict_isEmpty u).1 hempty
      have hueq : u = ⟨none, none, none⟩ := by
        rcases u with ⟨un, ud, up⟩
        simp only at hn hd hp
        rw [hn, hd, hp]
      subst hueq
      simp only [ormStep, templateStep, CRUDBase.get, CRUDBase.update, hr,
        TemplateCRUDBase.update, ProductUpdate.toDict, List.isEmpty_nil,
        TemplateCRUDBase.get, if_true]
      rw [empty_update_is_noop db r hord hu hr]
      simp [List.append_nil]
    · simp only [ormStep, templateStep, CRUDBase.get, CRUDBase.update, hr,
        template_update_nonempty db id u (by simpa using hempty)]
      rcases hres : updateRowInDb db r u.name u.description u.price with e | ⟨row', db'⟩
      · rfl
      · obtain ⟨hid', hfr, hdb'⟩ := updateRowInDb_ok hres
        have hget : TemplateCRUDBase.get db' id = some row' := by
          unfold TemplateCRUDBase.get
          rw [hdb']
          exact findById_map_replace db.rows id r row' hord hr hid'
        simp [hget]
  | remove id =>
    simp only [opTargetsExisting, Option.isSome_iff_exists] at hop
    obtain ⟨r, hr⟩ := hop
    simp only [ormStep, templateStep, CRUDBase.remove, TemplateCRUDBase.remove,
      TemplateCRUDBase.get, hr]

theorem template_update_found (db : DB) (id : Nat) (u : ProductUpdate) (r : Product)
    (hne : u.toDict.isEmpty = false) (hf : findById db.rows id = some r) :
    TemplateCRUDBase.update db id u.toDict
      = match updateRowInDb db r u.name u.description u.price with
        | .error e => .error e
        | .ok (_, db') => .ok (TemplateCRUDBase.get db' id, db') := by
  rw [template_update_nonempty db id u hne, hf]

theorem template_update_missing (db : DB) (id : Nat) (u : ProductUpdate)
    (hne : u.toDict.isEmpty = false) (hf : findById db.rows id = none) :
    TemplateCRUDBase.update db id u.toDict = .ok (none, db) := by
  rw [template_update_nonempty db id u hne, hf]

theorem step_preserves_inv (db : DB) (op : StoreOp) (hinv : dbInv db) :
    dbInv (templateStep db op).2 := by
  cases op with
  | get id => exact hinv
  | getMulti skip limit => exact hinv
  | create p =>
    simp only [templateStep, template_create_toDict]
    by_cases htaken : nameTaken db.rows p.name
    · rw [insertRow_taken db p.name p.description.join p.price htaken]
      exact hinv
    · rw [insertRow_fresh_ok db p.name p.description.join p.price (by simpa using htaken)]
      simp only [TemplateCRUDBase.get]
      rw [get_after_insert db p.name p.description.join p.price hinv.2.1]
      exact dbInv_insert db p.name p.description.join p.price hinv (by simpa using htaken)
  | update id u =>
    by_cases hempty : u.toDict.isEmpty
    · simp only [templateStep, TemplateCRUDBase.update, hempty, if_true]
      rcases TemplateCRUDBase.get db id with _ | r <;> exact hinv
    · rcases hf : findById db.rows id with _ | r
      · simp only [templateStep,
          template_update_missing db id u (by simpa using hempty) hf]
        exact hinv
      · rcases hres : updateRowInDb db r u.name u.description u.price with e | ⟨row', db'⟩
        · simp only [templateStep,
            template_update_found db id u r (by simpa using hempty) hf, hres]
          exact hinv
        · obtain ⟨hid', hfr, hdb'⟩ := updateRowInDb_ok hres
          simp only [templateStep,
            template_update_found db id u r (by simpa using hempty) hf, hres]
          rcases TemplateCRUDBase.get db' id with _ | r2 <;>
            (rw [hdb']; exact dbInv_replace db r row' hinv hid' hfr)
  | remove id =>
    simp only [templateStep, TemplateCRUDBase.remove]
    rcases TemplateCRUDBase.get db id with _ | r
    · exact hinv
    · exact dbInv_filter db _ hinv

theorem runs_agree (ops : List StoreOp) (db : DB) (hinv : dbInv db)
    (hv : validSeq db ops = true) : ormRun db ops = templateRun db ops := by
  induction ops generalizing db with
  | nil => rfl
  | cons op rest ih =>
    simp only [validSeq, Bool.and_eq_true] at hv
    have hstep := step_agrees db op hinv hv.1
    simp only [ormRun, templateRun, hstep]
    rw [ih (templateStep db op).2 (step_preserves_inv db op hinv) hv.2]

theorem service_get_found (b : Backend) (db : DB) (id : Nat) (r : Product)
    (hr : findById db.rows id = some r) :
    ProductService.get_product_by_id b db id = .ok r := by
  cases b <;>
    simp [ProductService.get_product_by_id, CRUDBase.get, TemplateCRUDBase.get, hr]

theorem service_get_missing (b : Backend) (db : DB) (id : Nat)
    (hr : findById db.rows id = none) :
    ProductService.get_product_by_id b db id = .error (.http ⟨404, "Product not found"⟩) := by
  cases b <;>
    simp [ProductService.get_product_by_id, CRUDBase.get, TemplateCRUDBase.get, hr]

theorem uniqueMsg_flags :
    strContains (uniqueMsg "name") "UNIQUE constraint failed" = true
      ∧ strContains (uniqueMsg "name") "NOT NULL constraint failed" = false := by
  decide

theorem notNullMsg_name_flags :
    strContains (notNullMsg "name") "NOT NULL constraint failed" = true
      ∧ ProductService.extractFieldName (notNullMsg "name") = "name" := by
  decide

/-! ## The claims -/

/-- C9 (confirmed): in the raw-SQL backend the generated SQL text is a
function of the table name and the dictionary's keys alone: two inputs that
agree on the table name and on the field keys but differ arbitrarily in the
bound values produce character-identical INSERT and UPDATE statements, so
every user-supplied value reaches the database only through bind
parameters. -/
theorem sqlTextIndependentOfValues (table : String) (o1 o2 : List (String × Val))
    (hk : o1.map Prod.fst = o2.map Prod.fst) :
    TemplateCRUDBase.createSql table o1 = TemplateCRUDBase.createSql table o2
      ∧ TemplateCRUDBase.updateSql table o1 = TemplateCRUDBase.updateSql table o2 := by
  have hcol : o1.map (fun kv => kv.1) = o2.map (fun kv => kv.1) := hk
  have hph : o1.map (fun kv => ":" ++ kv.1) = o2.map (fun kv => ":" ++ kv.1) := by
    have h1 : o1.map (fun kv => ":" ++ kv.1)
        = (o1.map Prod.fst).map (fun k => ":" ++ k) := by
      rw [List.map_map]; rfl
    have h2 : o2.map (fun kv => ":" ++ kv.1)
        = (o2.map Prod.fst).map (fun k => ":" ++ k) := by
      rw [List.map_map]; rfl
    rw [h1, h2, hk]
  have hset : o1.map (fun kv => kv.1 ++ " = :" ++ kv.1)
      = o2.map (fun kv => kv.1 ++ " = :" ++ kv.1) := by
    have h1 : o1.map (fun kv => kv.1 ++ " = :" ++ kv.1)
        = (o1.map Prod.fst).map (fun k => k ++ " = :" ++ k) := by
      rw [List.map_map]; rfl
    have h2 : o2.map (fun kv => kv.1 ++ " = :" ++ kv.1)
        = (o2.map Prod.fst).map (fun k => k ++ " = :" ++ k) := by
      rw [List.map_map]; rfl
    rw [h1, h2, hk]
  constructor
  · unfold TemplateCRUDBase.createSql
    rw [hcol, hph]
  · unfold TemplateCRUDBase.updateSql
    rw [hset]

/-- C9 witness: two dictionaries with the same keys and different values
(the second holding hostile-looking strings) generate identical SQL text. -/
theorem sqlTextIndependentOfValues_witness :
    ([("name", Val.str "A"), ("price", Val.num 10)].map Prod.fst
        = [("name", Val.str "x) ; DROP TABLE products --"), ("price", Val.num 0)].map Prod.fst)
      ∧ TemplateCRUDBase.createSql "products" [("name", Val.str "A"), ("price", Val.num 10)]
          = TemplateCRUDBase.createSql "products"
              [("name", Val.str "x) ; DROP TABLE products --"), ("price", Val.num 0)]
      ∧ TemplateCRUDBase.updateSql "products" [("name", Val.str "A"), ("price", Val.num 10)]
          = TemplateCRUDBase.updateSql "products"
              [("name", Val.str "x) ; DROP TABLE products --"), ("price", Val.num 0)] :=
  ⟨by decide, (sqlTextIndependentOfValues "products" _ _ (by decide)).1,
    (sqlTextIndependentOfValues "products" _ _ (by decide)).2⟩

/-- C10 (confirmed): when the existence fetch preceding the delete has
returned a record for the id (same state, no interleaving), the ORM backend's
`remove` takes its success branch — the `ValueError` branch is unreachable —
and `delete_product` returns the deleted record. -/
theorem ormDeleteAfterFetchAlwaysSucceeds (db : DB) (id : Nat) (r : Product)
    (hget : CRUDBase.get db id = some r) :
    CRUDBase.remove db id
        = .ok (r, ⟨db.rows.filter (fun x => x.id != id), db.nextId⟩)
      ∧ ProductService.delete_product .orm db id
        = (.ok (some r), ⟨db.rows.filter (fun x => x.id != id), db.nextId⟩) := by
  have hf : findById db.rows id = some r := hget
  have hrem : CRUDBase.remove db id
      = .ok (r, ⟨db.rows.filter (fun x => x.id != id), db.nextId⟩) := by
    unfold CRUDBase.remove
    rw [hf]
  refine ⟨hrem, ?_⟩
  unfold ProductService.delete_product
  rw [service_get_found .orm db id r hf]
  simp only [hrem]

/-- C10 witness. -/
theorem ormDeleteAfterFetchAlwaysSucceeds_witness :
    CRUDBase.get ⟨[⟨1, "A", none, 10⟩], 2⟩ 1 = some ⟨1, "A", none, 10⟩
      ∧ ProductService.delete_product .orm ⟨[⟨1, "A", none, 10⟩], 2⟩ 1
          = (.ok (some ⟨1, "A", none, 10⟩), ⟨[], 2⟩) :=
  ⟨by decide,
    (ormDeleteAfterFetchAlwaysSucceeds ⟨[⟨1, "A", none, 10⟩], 2⟩ 1
      ⟨1, "A", none, 10⟩ (by decide)).2⟩

/-- C4 counterexample: on an empty store, `remove(1)` raises a `ValueError` in
the ORM backend instead of returning an absent result; the raw-SQL backend
returns the absent result the claim expects of both. -/
theorem removeMissingIsErrorInOrmBackend :
    CRUDBase.remove ⟨[], 1⟩ 1 = .error (.valueError "Product with id 1 not found")
      ∧ TemplateCRUDBase.remove ⟨[], 1⟩ 1 = .ok (none, ⟨[], 1⟩) := by
  constructor
  · rfl
  · rfl

/-- C4 (corrected): when a matching record exists, both backends delete
exactly that record and return its prior contents, leaving every other row in
place; when no record matches, the raw-SQL backend returns an absent result
but the ORM backend raises a `ValueError` (the claim held only of the raw-SQL
backend on the absent side). -/
theorem removeDeletesAndReturnsPrior (db : DB) (id : Nat) :
    (findById db.rows id = none →
        TemplateCRUDBase.remove db id = .ok (none, db)
          ∧ ∃ m, CRUDBase.remove db id = .error (.valueError m))
      ∧ (∀ r, findById db.rows id = some r →
          CRUDBase.remove db id
              = .ok (r, ⟨db.rows.filter (fun x => x.id != id), db.nextId⟩)
            ∧ TemplateCRUDBase.remove db id
              = .ok (some r, ⟨db.rows.filter (fun x => x.id != id), db.nextId⟩)
            ∧ r ∉ db.rows.filter (fun x => x.id != id)
            ∧ ∀ x ∈ db.rows, x.id ≠ id → x ∈ db.rows.filter (fun x => x.id != id)) := by
  constructor
  · intro hmiss
    constructor
    · unfold TemplateCRUDBase.remove TemplateCRUDBase.get
      rw [hmiss]
    · refine ⟨"Product with id " ++ toString id ++ " not found", ?_⟩
      unfold CRUDBase.remove
      rw [hmiss]
  · intro r hr
    have hrid : r.id = id := findById_id_eq hr
    refine ⟨?_, ?_, ?_, ?_⟩
    · unfold CRUDBase.remove
      rw [hr]
    · unfold TemplateCRUDBase.remove TemplateCRUDBase.get
      rw [hr]
    · intro hmem
      have := (List.mem_filter.1 hmem).2
      simp [hrid] at this
    · intro x hx hne
      rw [List.mem_filter]
      exact ⟨hx, by simpa using hne⟩

/-- C4 witness: both halves exercised on concrete stores. -/
theorem removeDeletesAndReturnsPrior_witness :
    (TemplateCRUDBase.remove ⟨[⟨1, "A", none, 10⟩], 2⟩ 7 = .ok (none, ⟨[⟨1, "A", none, 10⟩], 2⟩)
        ∧ ∃ m, CRUDBase.remove ⟨[⟨1, "A", none, 10⟩], 2⟩ 7 = .error (.valueError m))
      ∧ (CRUDBase.remove ⟨[⟨1, "A", none, 10⟩, ⟨2, "B", none, 20⟩], 3⟩ 1
            = .ok (⟨1, "A", none, 10⟩, ⟨[⟨2, "B", none, 20⟩], 3⟩)
          ∧ TemplateCRUDBase.remove ⟨[⟨1, "A", none, 10⟩, ⟨2, "B", none, 20⟩], 3⟩ 1
            = .ok (some ⟨1, "A", none, 10⟩, ⟨[⟨2, "B", none, 20⟩], 3⟩)) := by
  refine ⟨(removeDeletesAndReturnsPrior ⟨[⟨1, "A", none, 10⟩], 2⟩ 7).1 (by decide), ?_, ?_⟩
  · exact ((removeDeletesAndReturnsPrior ⟨[⟨1, "A", none, 10⟩, ⟨2, "B", none, 20⟩], 3⟩ 1).2
      ⟨1, "A", none, 10⟩ (by decide)).1.trans (by rfl)
  · exact ((removeDeletesAndReturnsPrior ⟨[⟨1, "A", none, 10⟩, ⟨2, "B", none, 20⟩], 3⟩ 1).2
      ⟨1, "A", none, 10⟩ (by decide)).2.1.trans (by rfl)

/-- C6 (confirmed): for an id with no matching record, both `update_product`
and `delete_product` return a 404 from the preceding existence fetch with the
store untouched; `delete_product` on an existing id removes the record and
returns its prior contents. -/
theorem existenceCheckBeforeUpdateDelete (b : Backend) (db : DB) (id : Nat) :
    (findById db.rows id = none →
        (∀ u, ProductService.update_product b db id u
            = (.error (.http ⟨404, "Product not found"⟩), db))
          ∧ ProductService.delete_product b db id
            = (.error (.http ⟨404, "Product not found"⟩), db))
      ∧ (∀ r, findById db.rows id = some r →
          ProductService.delete_product b db id
            = (.ok (some r), ⟨db.rows.filter (fun x => x.id != id), db.nextId⟩)) := by
  constructor
  · intro hmiss
    have hget := service_get_missing b db id hmiss
    constructor
    · intro u
      unfold ProductService.update_product
      rw [hget]
    · unfold ProductService.delete_product
      rw [hget]
  · intro r hr
    have hget := service_get_found b db id r hr
    unfold ProductService.delete_product
    rw [hget]
    cases b with
    | orm =>
      have : CRUDBase.remove db id
          = .ok (r, ⟨db.rows.filter (fun x => x.id != id), db.nextId⟩) := by
        unfold CRUDBase.remove
        rw [hr]
      simp only [this]
    | template =>
      have : TemplateCRUDBase.remove db id
          = .ok (some r, ⟨db.rows.filter (fun x => x.id != id), db.nextId⟩) := by
        unfold TemplateCRUDBase.remove TemplateCRUDBase.get
        rw [hr]
      simp only [this]

/-- C6 witness: a missing id yields 404 for update and delete on both
backends; an existing id is deleted. -/
theorem existenceCheckBeforeUpdateDelete_witness :
    (ProductService.update_product .orm ⟨[⟨1, "A", none, 10⟩], 2⟩ 9
          ⟨none, some (some "x"), none⟩
        = (.error (.http ⟨404, "Product not found"⟩), ⟨[⟨1, "A", none, 10⟩], 2⟩))
      ∧ ProductService.delete_product .template ⟨[⟨1, "A", none, 10⟩], 2⟩ 9
        = (.error (.http ⟨404, "Product not found"⟩), ⟨[⟨1, "A", none, 10⟩], 2⟩)
      ∧ ProductService.delete_product .template ⟨[⟨1, "A", none, 10⟩], 2⟩ 1
        = (.ok (some ⟨1, "A", none, 10⟩), ⟨[], 2⟩) := by
  refine ⟨(existenceCheckBeforeUpdateDelete .orm ⟨[⟨1, "A", none, 10⟩], 2⟩ 9).1
      (by decide) |>.1 ⟨none, some (some "x"), none⟩,
    (existenceCheckBeforeUpdateDelete .template ⟨[⟨1, "A", none, 10⟩], 2⟩ 9).1
      (by decide) |>.2, ?_⟩
  exact ((existenceCheckBeforeUpdateDelete .template ⟨[⟨1, "A", none, 10⟩], 2⟩ 1).2
    ⟨1, "A", none, 10⟩ (by decide)).trans (by rfl)

/-- C3 counterexample: with the ORM backend, a create that collides on the
unique name is answered by `CRUDBase.create`'s own pre-caught
`HTTPException(400)` whose fixed detail does not contain the conflicting name
("widget"), contradicting the claim that the ALREADY_EXISTS message contains
the conflicting name for every such request. -/
theorem ormCreateConflictLacksName :
    ProductService.create_product .orm ⟨[⟨1, "widget", none, 5⟩], 2⟩ ⟨"widget", none, 10⟩
        = (.error (.http ⟨400, "A record with this value already exists."⟩),
           ⟨[⟨1, "widget", none, 5⟩], 2⟩)
      ∧ strContains "A record with this value already exists." "widget" = false := by
  exact ⟨rfl, rfl⟩

/-- C3 (corrected): on a uniqueness violation the raw-SQL backend's
`create_product` signals 400 with a message containing the conflicting name,
and the service's classifier maps any non-unique integrity message to the
generic 400 constraint-violation detail; but with the ORM backend the same
conflict is answered by `CRUDBase.create`'s fixed 400 message, which does not
name the product, and that path swallows every `IntegrityError` alike. -/
theorem createConflictSignals (db : DB) (p : ProductCreate)
    (hdup : nameTaken db.rows p.name = true) :
    ProductService.create_product .template db p
        = (.error (.http ⟨400, "Product with name " ++ squote ++ p.name ++ squote
            ++ " already exists"⟩), db)
      ∧ ProductService.create_product .orm db p
        = (.error (.http ⟨400, "A record with this value already exists."⟩), db)
      ∧ ∀ msg, strContains msg "UNIQUE constraint failed" = false →
          strContains (strLower msg) "already exists" = false →
          ProductService.createErrToSvc p.name (.integrity msg)
            = .http ⟨400, "Database constraint violation"⟩ := by
  have htpl : TemplateCRUDBase.create db p.toDict
      = .error (.integrity (uniqueMsg "name")) := by
    rw [template_create_toDict, insertRow_taken db p.name p.description.join p.price hdup]
  have horm : CRUDBase.create db p
      = .error (.http 400 "A record with this value already exists.") := by
    unfold CRUDBase.create
    rw [insertRow_taken db p.name p.description.join p.price hdup]
  refine ⟨?_, ?_, ?_⟩
  · unfold ProductService.create_product
    simp only [htpl, ProductService.createErrToSvc, uniqueMsg_flags.1, Bool.true_or, if_true]
  · unfold ProductService.create_product
    simp only [horm, ProductService.createErrToSvc]
  · intro msg h1 h2
    simp only [ProductService.createErrToSvc, h1, h2, Bool.or_self, if_false,
      Bool.false_eq_true]

/-- C3 witness: the amended per-backend behaviour at a concrete conflicting
create. -/
theorem createConflictSignals_witness :
    nameTaken [⟨1, "gizmo", none, 5⟩] "gizmo" = true
      ∧ ProductService.create_product .template ⟨[⟨1, "gizmo", none, 5⟩], 2⟩
          ⟨"gizmo", none, 7⟩
        = (.error (.http ⟨400, "Product with name " ++ squote ++ "gizmo" ++ squote
            ++ " already exists"⟩), ⟨[⟨1, "gizmo", none, 5⟩], 2⟩) :=
  ⟨by rfl,
    (createConflictSignals ⟨[⟨1, "gizmo", none, 5⟩], 2⟩ ⟨"gizmo", none, 7⟩ (by rfl)).1⟩

/-- C5 (confirmed): updating an existing product with a request that
explicitly sets `name` to null yields a 422 whose detail names the field
"name" (extracted from the SQLite NOT NULL message by the service's scanner),
and the state handed back with the error is the pre-update state: the session
was rolled back and the record is unmodified. -/
theorem updateNullNameRejected (b : Backend) (db : DB) (id : Nat)
    (u : ProductUpdate) (r : Product) (hr : findById db.rows id = some r)
    (hn : u.name = some none) :
    ProductService.update_product b db id u
      = (.error (.http ⟨422, "Required field " ++ squote ++ "name" ++ squote
          ++ " cannot be null or empty"⟩), db) := by
  have hget := service_get_found b db id r hr
  have hupd : updateRowInDb db r u.name u.description u.price
      = .error (.integrity (notNullMsg "name")) := by
    unfold updateRowInDb
    rw [hn]
  have herr : ProductService.updateErrToSvc (.integrity (notNullMsg "name"))
      = .http ⟨422, "Required field " ++ squote ++ "name" ++ squote
          ++ " cannot be null or empty"⟩ := by
    simp only [ProductService.updateErrToSvc, notNullMsg_name_flags.1, if_true,
      notNullMsg_name_flags.2]
  unfold ProductService.update_product
  rw [hget]
  cases b with
  | orm =>
    have horm : CRUDBase.update db r u = .error (.integrity (notNullMsg "name")) := hupd
    simp only [horm, herr]
  | template =>
    have hne : u.toDict.isEmpty = false := by
      rcases h : u.toDict.isEmpty
      · rfl
      · obtain ⟨h1, _, _⟩ := (update_toDict_isEmpty u).1 h
        rw [hn] at h1
        cases h1
    have htpl : TemplateCRUDBase.update db id u.toDict
        = .error (.integrity (notNullMsg "name")) := by
      rw [template_update_found db id u r hne hr, hupd]
    simp only [htpl, herr]

/-- C5 witness. -/
theorem updateNullNameRejected_witness :
    findById [⟨1, "A", none, 10⟩] 1 = some ⟨1, "A", none, 10⟩
      ∧ ProductService.update_product .orm ⟨[⟨1, "A", none, 10⟩], 2⟩ 1
          ⟨some none, some (some "Name set to null"), none⟩
        = (.error (.http ⟨422, "Required field " ++ squote ++ "name" ++ squote
            ++ " cannot be null or empty"⟩), ⟨[⟨1, "A", none, 10⟩], 2⟩) :=
  ⟨by rfl,
    updateNullNameRejected .orm ⟨[⟨1, "A", none, 10⟩], 2⟩ 1
      ⟨some none, some (some "Name set to null"), none⟩ ⟨1, "A", none, 10⟩ (by rfl) rfl⟩

/-- C1 counterexample: the same single-operation sequence (`remove 1`) from
the same empty store gives a raised-exception outcome under the ORM backend
(`CRUDBase.remove` raises `ValueError`) but an absent outcome under the
raw-SQL backend, so the two backends do not produce the same
success/absent/failure outcome for every sequence. -/
theorem backendsDisagreeOnRemoveMissing :
    (ormRun ⟨[], 1⟩ [StoreOp.remove 1]).1 = [Outcome.failure]
      ∧ (templateRun ⟨[], 1⟩ [StoreOp.remove 1]).1 = [Outcome.absent] :=
  ⟨rfl, rfl⟩

/-- C1 (corrected): for every sequence of storage operations in which each
`update` and `remove` targets an id live at the moment of the call — exactly
the call shapes the orchestration layer produces, since it pre-fetches before
both — replaying the sequence against the ORM backend and against the raw-SQL
backend from the same initial store state (satisfying the store invariants)
yields identical per-call outcomes (returned record contents,
absent, failure) and identical final states.  The unrestricted claim fails on
`remove` of a missing id (see the counterexample), where the ORM backend
raises while the raw-SQL backend reports absent. -/
theorem backendsAgreeOnOrchestratedSequences (db : DB) (ops : List StoreOp)
    (hinv : dbInv db) (hv : validSeq db ops = true) :
    ormRun db ops = templateRun db ops :=
  runs_agree ops db hinv hv

/-- C1 witness: a seven-call sequence (creates, get, update, list, remove,
and a duplicate-name create that fails on both sides) replayed from the empty
store. -/
theorem backendsAgreeOnOrchestratedSequences_witness :
    dbInv ⟨[], 1⟩
      ∧ validSeq ⟨[], 1⟩
          [StoreOp.create ⟨"A", none, 10⟩,
           StoreOp.create ⟨"B", some (some "d"), 20⟩,
           StoreOp.get 1,
           StoreOp.update 2 ⟨none, some (some "x"), some (some 30)⟩,
           StoreOp.getMulti 0 100,
           StoreOp.remove 1,
           StoreOp.create ⟨"B", none, 5⟩] = true
      ∧ ormRun ⟨[], 1⟩
          [StoreOp.create ⟨"A", none, 10⟩,
           StoreOp.create ⟨"B", some (some "d"), 20⟩,
           StoreOp.get 1,
           StoreOp.update 2 ⟨none, some (some "x"), some (some 30)⟩,
           StoreOp.getMulti 0 100,
           StoreOp.remove 1,
           StoreOp.create ⟨"B", none, 5⟩]
        = templateRun ⟨[], 1⟩
          [StoreOp.create ⟨"A", none, 10⟩,
           StoreOp.create ⟨"B", some (some "d"), 20⟩,
           StoreOp.get 1,
           StoreOp.update 2 ⟨none, some (some "x"), some (some 30)⟩,
           StoreOp.getMulti 0 100,
           StoreOp.remove 1,
           StoreOp.create ⟨"B", none, 5⟩] :=
  ⟨by decide, by decide,
    backendsAgreeOnOrchestratedSequences ⟨[], 1⟩ _ (by decide) (by decide)⟩

/-- C2 (confirmed): over any store state in scan order (the invariant of
every reachable state) and any `skip` and `1 ≤ limit ≤ 1000`, both backends'
list operation returns the persisted products ordered by id ascending with
the first `skip` skipped and at most `limit` returned. -/
theorem listPaginatesInIdOrder (b : Backend) (db : DB) (skip limit : Nat)
    (hord : rowsOrdered db.rows) (h1 : 1 ≤ limit) (h2 : limit ≤ 1000) :
    ProductService.get_all_products b db skip limit
        = ((db.rows.insertionSort (fun a b => a.id ≤ b.id)).drop skip).take limit
      ∧ rowsOrdered (ProductService.get_all_products b db skip limit)
      ∧ (ProductService.get_all_products b db skip limit).length ≤ limit := by
  have hsort := insertionSort_eq_of_ordered db.rows hord
  have hslice : rowsOrdered ((db.rows.drop skip).take limit) := by
    rw [rowsOrdered] at hord ⊢
    exact List.Pairwise.sublist
      ((List.take_sublist _ _).trans (List.drop_sublist _ _)) hord
  have hlen : ((db.rows.drop skip).take limit).length ≤ limit :=
    List.length_take_le _ _
  cases b with
  | orm =>
    refine ⟨?_, ?_, ?_⟩
    · simp only [ProductService.get_all_products, CRUDBase.get_multi, hsort]
    · simpa only [ProductService.get_all_products, CRUDBase.get_multi] using hslice
    · simpa only [ProductService.get_all_products, CRUDBase.get_multi] using hlen
  | template =>
    refine ⟨?_, ?_, ?_⟩
    · simp only [ProductService.get_all_products, TemplateCRUDBase.get_multi]
    · simpa only [ProductService.get_all_products, TemplateCRUDBase.get_multi,
        hsort] using hslice
    · simpa only [ProductService.get_all_products, TemplateCRUDBase.get_multi,
        hsort] using hlen

/-- C2 witness: over 5 products inserted in creation order, both backends'
`list(skip=2, limit=2)` returns exactly the 3rd and 4th products. -/
theorem listPaginatesInIdOrder_witness :
    ProductService.get_all_products .orm
        ⟨[⟨1, "p1", none, 1⟩, ⟨2, "p2", none, 2⟩, ⟨3, "p3", none, 3⟩,
          ⟨4, "p4", none, 4⟩, ⟨5, "p5", none, 5⟩], 6⟩ 2 2
      = [⟨3, "p3", none, 3⟩, ⟨4, "p4", none, 4⟩]
      ∧ ProductService.get_all_products .template
          ⟨[⟨1, "p1", none, 1⟩, ⟨2, "p2", none, 2⟩, ⟨3, "p3", none, 3⟩,
            ⟨4, "p4", none, 4⟩, ⟨5, "p5", none, 5⟩], 6⟩ 2 2
        = [⟨3, "p3", none, 3⟩, ⟨4, "p4", none, 4⟩]
      ∧ rowsOrdered (ProductService.get_all_products .template
          ⟨[⟨1, "p1", none, 1⟩, ⟨2, "p2", none, 2⟩, ⟨3, "p3", none, 3⟩,
            ⟨4, "p4", none, 4⟩, ⟨5, "p5", none, 5⟩], 6⟩ 2 2) :=
  ⟨((listPaginatesInIdOrder .orm
      ⟨[⟨1, "p1", none, 1⟩, ⟨2, "p2", none, 2⟩, ⟨3, "p3", none, 3⟩,
        ⟨4, "p4", none, 4⟩, ⟨5, "p5", none, 5⟩], 6⟩ 2 2
      (by decide) (by decide) (by decide)).1).trans (by rfl),
   ((listPaginatesInIdOrder .template
      ⟨[⟨1, "p1", none, 1⟩, ⟨2, "p2", none, 2⟩, ⟨3, "p3", none, 3⟩,
        ⟨4, "p4", none, 4⟩, ⟨5, "p5", none, 5⟩], 6⟩ 2 2
      (by decide) (by decide) (by decide)).1).trans (by rfl),
   (listPaginatesInIdOrder .template
      ⟨[⟨1, "p1", none, 1⟩, ⟨2, "p2", none, 2⟩, ⟨3, "p3", none, 3⟩,
        ⟨4, "p4", none, 4⟩, ⟨5, "p5", none, 5⟩], 6⟩ 2 2
      (by decide) (by decide) (by decide)).2.1⟩

theorem updateRowInDb_success (db : DB) (r : Product) (u : ProductUpdate)
    (hnames : namesUnique db.rows) (hmem : r ∈ db.rows)
    (hn : u.name = none
      ∨ ∃ s, u.name = some (some s) ∧ nameTakenExcept db.rows r.id s = false)
    (hp : u.price = none ∨ ∃ q, u.price = some (some q)) :
    ∃ r', updateRowInDb db r u.name u.description u.price
        = .ok (r', ⟨db.rows.map (fun x => if x.id == r.id then r' else x), db.nextId⟩)
      ∧ r'.id = r.id
      ∧ (u.name = none → r'.name = r.name)
      ∧ (u.description = none → r'.description = r.description)
      ∧ (u.price = none → r'.price = r.price)
      ∧ (u.name = none ∧ u.description = none ∧ u.price = none → r' = r) := by
  have hname : ∃ n', (match u.name with | none => some r.name | some v => v) = some n'
      ∧ nameTakenExcept db.rows r.id n' = false
      ∧ (u.name = none → n' = r.name) := by
    rcases hn with h | ⟨s, hs, hfr⟩
    · exact ⟨r.name, by rw [h], nameTakenExcept_self db.rows r hnames hmem, fun _ => rfl⟩
    · refine ⟨s, by rw [hs], hfr, ?_⟩
      intro h0
      rw [h0] at hs
      cases hs
  obtain ⟨n', hn', hfr', hnn⟩ := hname
  have hprice : ∃ q', (match u.price with | none => some r.price | some v => v) = some q'
      ∧ (u.price = none → q' = r.price) := by
    rcases hp with h | ⟨q, hq⟩
    · exact ⟨r.price, by rw [h], fun _ => rfl⟩
    · refine ⟨q, by rw [hq], ?_⟩
      intro h0
      rw [h0] at hq
      cases hq
  obtain ⟨q', hq', hqq⟩ := hprice
  refine ⟨⟨r.id, n',
      (match u.description with | none => r.description | some v => v), q'⟩,
    ?_, rfl, ?_, ?_, ?_, ?_⟩
  · unfold updateRowInDb
    rw [hn', hq']
    simp [hfr']
  · intro h
    exact hnn h
  · intro h
    simp only [h]
  · intro h
    exact hqq h
  · rintro ⟨h1, h2, h3⟩
    have e1 := hnn h1
    have e3 := hqq h3
    rw [e1, e3, h2]

/-- C7 (confirmed): a partial update of an existing product that can succeed
at the store (its present name, if any, is non-null and does not collide; its
present price, if any, is non-null) replaces exactly that product's row, and
every field absent from the request keeps its prior value; the all-absent
update leaves the record equal to its prior contents. -/
theorem partialUpdateFrame (b : Backend) (db : DB) (id : Nat) (u : ProductUpdate)
    (r : Product) (hord : rowsOrdered db.rows) (hnames : namesUnique db.rows)
    (hr : findById db.rows id = some r)
    (hn : u.name = none
      ∨ ∃ s, u.name = some (some s) ∧ nameTakenExcept db.rows id s = false)
    (hp : u.price = none ∨ ∃ q, u.price = some (some q)) :
    ∃ r', ProductService.update_product b db id u
        = (.ok (some r'), ⟨db.rows.map (fun x => if x.id == id then r' else x), db.nextId⟩)
      ∧ r'.id = id
      ∧ (u.name = none → r'.name = r.name)
      ∧ (u.description = none → r'.description = r.description)
      ∧ (u.price = none → r'.price = r.price)
      ∧ (u.name = none ∧ u.description = none ∧ u.price = none → r' = r) := by
  have hrid : r.id = id := findById_id_eq hr
  have hmem := findById_mem hr
  have hn2 : u.name = none
      ∨ ∃ s, u.name = some (some s) ∧ nameTakenExcept db.rows r.id s = false := by
    rw [hrid]
    exact hn
  obtain ⟨r', hres, hid', c2, c3, c4, c5⟩ :=
    updateRowInDb_success db r u hnames hmem hn2 hp
  have hget := service_get_found b db id r hr
  refine ⟨r', ?_, by rw [hid', hrid], c2, c3, c4, c5⟩
  unfold ProductService.update_product
  rw [hget]
  cases b with
  | orm =>
    have horm : CRUDBase.update db r u
        = .ok (r', ⟨db.rows.map (fun x => if x.id == r.id then r' else x), db.nextId⟩) :=
      hres
    simp only [horm, hrid]
  | template =>
    by_cases hempty : u.toDict.isEmpty
    · obtain ⟨e1, e2, e3⟩ := (update_toDict_isEmpty u).1 hempty
      have hrr : r' = r := c5 ⟨e1, e2, e3⟩
      subst hrr
      simp only [TemplateCRUDBase.update, hempty, if_true, TemplateCRUDBase.get, hr]
      have hmap : db.rows.map (fun x => if x.id == id then r' else x) = db.rows := by
        simp only [← hrid]
        exact map_replace_self db.rows id r' hord hr
      rw [hmap]
    · have hgetafter : TemplateCRUDBase.get
          ⟨db.rows.map (fun x => if x.id == r.id then r' else x), db.nextId⟩ id
            = some r' := by
        unfold TemplateCRUDBase.get
        exact findById_map_replace db.rows id r r' hord hr hid'
      have htpl : TemplateCRUDBase.update db id u.toDict
          = .ok (some r',
              ⟨db.rows.map (fun x => if x.id == r.id then r' else x), db.nextId⟩) := by
        rw [template_update_found db id u r (by simpa using hempty) hr, hres]
        simp only [hgetafter]
      simp only [htpl, hrid]

/-- C7 witness: the partial update `(description := "x")` on an existing
product leaves name and price unchanged (and concretely produces the record
with only the description changed). -/
theorem partialUpdateFrame_witness :
    (∃ r', ProductService.update_product .template ⟨[⟨1, "A", none, 10⟩], 2⟩ 1
          ⟨none, some (some "x"), none⟩
        = (.ok (some r'),
           ⟨[⟨1, "A", none, 10⟩].map (fun x => if x.id == 1 then r' else x), 2⟩)
      ∧ r'.id = 1
      ∧ ((none : Option (Option String)) = none → r'.name = "A")
      ∧ ((some (some "x") : Option (Option String)) = none → r'.description = none)
      ∧ ((none : Option (Option ℚ)) = none → r'.price = 10)
      ∧ ((none : Option (Option String)) = none
          ∧ (some (some "x") : Option (Option String)) = none
          ∧ (none : Option (Option ℚ)) = none → r' = ⟨1, "A", none, 10⟩))
      ∧ ProductService.update_product .template ⟨[⟨1, "A", none, 10⟩], 2⟩ 1
          ⟨none, some (some "x"), none⟩
        = (.ok (some ⟨1, "A", some "x", 10⟩), ⟨[⟨1, "A", some "x", 10⟩], 2⟩) :=
  ⟨partialUpdateFrame .template ⟨[⟨1, "A", none, 10⟩], 2⟩ 1
      ⟨none, some (some "x"), none⟩ ⟨1, "A", none, 10⟩
      (by decide) (by decide) (by rfl) (Or.inl rfl) (Or.inl rfl),
   by rfl⟩

/-- C8 (confirmed): creating a validated product whose name is not yet taken
succeeds in both backends, with the stored record carrying exactly the input
fields and a freshly assigned id (the store's next id, distinct from every
live id and never reused since the next-id counter only grows), and an
immediate get-by-id on the resulting state returns that record. -/
theorem createThenGetRoundtrip (b : Backend) (db : DB) (p : ProductCreate)
    (hvalid : p.valid) (hfresh : nameTaken db.rows p.name = false)
    (hbnd : idsBounded db) :
    ∃ row db', ProductService.create_product b db p = (.ok (some row), db')
      ∧ row.name = p.name ∧ row.description = p.description.join
      ∧ row.price = p.price ∧ row.id = db.nextId
      ∧ (∀ r ∈ db.rows, r.id ≠ row.id)
      ∧ db'.nextId = db.nextId + 1
      ∧ ProductService.get_product_by_id b db' row.id = .ok row := by
  have hins := insertRow_fresh_ok db p.name p.description.join p.price hfresh
  refine ⟨⟨db.nextId, p.name, p.description.join, p.price⟩,
    ⟨db.rows ++ [⟨db.nextId, p.name, p.description.join, p.price⟩], db.nextId + 1⟩,
    ?_, rfl, rfl, rfl, rfl, ?_, rfl, ?_⟩
  · cases b with
    | orm =>
      unfold ProductService.create_product CRUDBase.create
      rw [hins]
    | template =>
      unfold ProductService.create_product
      rw [template_create_toDict, hins]
      simp only [TemplateCRUDBase.get]
      rw [get_after_insert db p.name p.description.join p.price hbnd]
  · intro r hr
    exact Nat.ne_of_lt (hbnd r hr)
  · exact service_get_found b _ _ _
      (get_after_insert db p.name p.description.join p.price hbnd)

/-- C8 witness: a concrete create-then-get round trip through the raw-SQL
backend on a one-row store. -/
theorem createThenGetRoundtrip_witness :
    (⟨"Widget", some (some "d"), 10⟩ : ProductCreate).valid
      ∧ nameTaken [⟨1, "A", none, 5⟩] "Widget" = false
      ∧ (∃ row db', ProductService.create_product .template ⟨[⟨1, "A", none, 5⟩], 2⟩
            ⟨"Widget", some (some "d"), 10⟩ = (.ok (some row), db')
          ∧ row.name = "Widget" ∧ row.description = some "d"
          ∧ row.price = 10 ∧ row.id = 2
          ∧ (∀ r ∈ ([⟨1, "A", none, 5⟩] : List Product), r.id ≠ row.id)
          ∧ db'.nextId = 3
          ∧ ProductService.get_product_by_id .template db' row.id = .ok row)
      ∧ ProductService.create_product .template ⟨[⟨1, "A", none, 5⟩], 2⟩
            ⟨"Widget", some (some "d"), 10⟩
          = (.ok (some ⟨2, "Widget", some "d", 10⟩),
             ⟨[⟨1, "A", none, 5⟩, ⟨2, "Widget", some "d", 10⟩], 3⟩) :=
  ⟨by decide, by decide,
   createThenGetRoundtrip .template ⟨[⟨1, "A", none, 5⟩], 2⟩
     ⟨"Widget", some (some "d"), 10⟩ (by decide) (by decide) (by decide),
   by rfl⟩
